import Mathlib

/-!
Verification of the caching decorator in `src/src/caching_client.rs` of
rust-freedom-api.

The decorator (`CachingClient`) wraps an upstream `Client` and a
`moka::future::Cache<Url, (Bytes, StatusCode)>`.  We shallowly embed the
file's code: the cache becomes an association list with a lookup operation,
the upstream client becomes a record of response functions (its code lives
outside this file's scope, so it is modelled from the spec's Upstream Client
interface), and each decorator method becomes a pure function that threads
the cache state explicitly and reports how many upstream calls it performed.
-/

namespace FreedomApi

/-- Resource identifier (`url::Url`): an opaque comparable key. -/
abbrev Url := String

/-- Byte payload (`bytes::Bytes`). -/
abbrev Bytes := List Nat

/-- HTTP status code (`reqwest::StatusCode`). -/
abbrev StatusCode := Nat

/-- Raw response for write/delete operations (`reqwest::Response`), opaque. -/
abbrev RawResponse := Nat

/-- Configuration state (`freedom_config::Config`), opaque. -/
abbrev Config := Nat

/-- A message body passed to `post`, already in serialized form. -/
abbrev Msg := List Nat

/-- Error taxonomy (`crate::error::Error`): the spec names TransportError and
SerializationError; each carries an opaque code. -/
inductive Error where
  | transport : Nat → Error
  | serialization : Nat → Error
deriving DecidableEq, Repr

/-- Equality of `Except` values is decidable when it is on both components. -/
def exceptDecEq {ε α : Type} [DecidableEq ε] [DecidableEq α] :
    DecidableEq (Except ε α) := fun a b =>
  match a, b with
  | .ok x, .ok y =>
      if h : x = y then .isTrue (by rw [h]) else .isFalse (by simp [h])
  | .error x, .error y =>
      if h : x = y then .isTrue (by rw [h]) else .isFalse (by simp [h])
  | .ok _, .error _ => .isFalse (by simp)
  | .error _, .ok _ => .isFalse (by simp)

instance {ε α : Type} [DecidableEq ε] [DecidableEq α] :
    DecidableEq (Except ε α) := exceptDecEq

/-- Modelled from the spec: the Upstream Client (`crate::Client`) is not under
`src/`; spec section 6 gives its interface as `read(id) -> (bytes, status) | error`,
`write(id, payload) -> response | error`, `delete(id) -> response | error`,
plus configuration get/set.  Each operation is an arbitrary response
function; the configuration is a readable/writable field. -/
structure Client where
  get : Url → Except Error (Bytes × StatusCode)
  post : Url → Msg → Except Error RawResponse
  delete : Url → Except Error RawResponse
  config : Config

/-- The cache store (`moka::future::Cache<Url, (Bytes, StatusCode)>`): a
mapping from resource identifier to cached (payload, status) entry, embedded
as an association list. -/
structure Cache where
  entries : List (Url × (Bytes × StatusCode))
deriving DecidableEq, Repr

/-- `moka::future::Cache::get`: look the key up, returning the entry if present. -/
def Cache.get (c : Cache) (url : Url) : Option (Bytes × StatusCode) :=
  c.entries.lookup url

/-- `CachingClient` (caching_client.rs lines 23-27): the wrapped inner client
plus the cache store. -/
structure CachingClient where
  inner : Client
  cache : Cache

/-- Observable outcome of one `CachingClient::get` call: the returned result,
the cache state after the call, and the number of upstream `Client::get`
calls performed (the call counting the spec's testable properties use). -/
structure GetOutcome where
  result : Except Error (Bytes × StatusCode)
  cache : Cache
  upstreamCalls : Nat
deriving DecidableEq, Repr

/-- Shallow embedding of `CachingClient::get` (caching_client.rs lines 48-64):
`match self.cache.get(&url).await { Some(out) => out, None => fut.await? }`
where `fut` awaits `self.inner.get(url_clone)`.  On a hit the cached entry is
returned with no upstream call; on a miss the upstream client is called once
and its result (value or error) is returned.  The source contains no
`cache.insert` call, so the cache state passes through unchanged on every
path. -/
def CachingClient.get (c : CachingClient) (url : Url) : GetOutcome :=
  match Cache.get c.cache url with
  | some out => { result := .ok out, cache := c.cache, upstreamCalls := 0 }
  | none =>
    match c.inner.get url with
    | .ok (body, status) =>
        { result := .ok (body, status), cache := c.cache, upstreamCalls := 1 }
    | .error e => { result := .error e, cache := c.cache, upstreamCalls := 1 }

/-- Shallow embedding of `CachingClient::delete` (lines 44-46): pure
delegation `self.inner.delete(url).await`; the pair's second component is the
cache state after the call, which the source never touches. -/
def CachingClient.delete (c : CachingClient) (url : Url) :
    Except Error RawResponse × Cache :=
  (c.inner.delete url, c.cache)

/-- Shallow embedding of `CachingClient::post` (lines 66-71): pure delegation
`self.inner.post(url, msg).await`; the cache state passes through unchanged. -/
def CachingClient.post (c : CachingClient) (url : Url) (msg : Msg) :
    Except Error RawResponse × Cache :=
  (c.inner.post url msg, c.cache)

/-- Shallow embedding of `CachingClient::config` (lines 73-75):
`self.inner.config()`. -/
def CachingClient.config (c : CachingClient) : Config :=
  c.inner.config

/-- Shallow embedding of the effect of writing through
`CachingClient::config_mut` (lines 77-79): the returned mutable reference is
`self.inner.config_mut()`, so assigning a new configuration through it
replaces the inner client's configuration and leaves every other component of
the decorator untouched. -/
def CachingClient.writeConfig (c : CachingClient) (cfg : Config) : CachingClient :=
  { c with inner := { c.inner with config := cfg } }

/-- Shallow embedding of `PartialEq for CachingClient` (lines 29-33):
`self.inner == other.inner`.  `Client`'s own `PartialEq` lives outside this
file's scope, so it is taken as a parameter. -/
def CachingClient.beq (beqClient : Client → Client → Bool)
    (a b : CachingClient) : Bool :=
  beqClient a.inner b.inner

/-- Shared-ownership handle (`std::sync::Arc<T>`): the referenced value
together with the number of other live references to the same allocation. -/
structure Arc (T : Type) where
  value : T
  otherRefs : Nat

/-- Shallow embedding of `Container<T> for Arc<T>::into_inner` (lines 35-39),
which is `Arc::unwrap_or_clone(self)`: when the caller holds the only
outstanding reference the value is moved out; otherwise the value is cloned.
`clone` is `T`'s clone operation, a parameter of the model. -/
def Arc.intoInner {T : Type} (clone : T → T) (a : Arc T) : T :=
  if a.otherRefs = 0 then a.value else clone a.value

/-- Instrumented variant of `Arc.intoInner` that also reports how many clone
operations were performed: zero when the handle was the sole reference (the
value is moved), one otherwise (a duplicate is produced). -/
def Arc.intoInnerCounting {T : Type} (clone : T → T) (a : Arc T) : T × Nat :=
  if a.otherRefs = 0 then (a.value, 0) else (clone a.value, 1)

/-- A stub upstream client whose `get` always succeeds with payload
`[104, 105]` and status 200. -/
def stubClient : Client :=
  { get := fun _ => .ok ([104, 105], 200)
  , post := fun _ _ => .ok 0
  , delete := fun _ => .ok 0
  , config := 0 }

/-- The stub client behind a caching decorator with an empty cache. -/
def stubCaching : CachingClient :=
  { inner := stubClient, cache := ⟨[]⟩ }

/-- A stub upstream client whose `get` always fails with a transport error. -/
def failClient : Client :=
  { get := fun _ => .error (.transport 7)
  , post := fun _ _ => .ok 0
  , delete := fun _ => .ok 0
  , config := 0 }

/-- The failing stub behind a decorator whose cache already holds the entry
`"a" -> ([1, 2], 404)`. -/
def cachedCaching : CachingClient :=
  { inner := failClient, cache := ⟨[("a", ([1, 2], 404))]⟩ }

/-- The failing stub behind a decorator with an empty cache. -/
def failCaching : CachingClient :=
  { inner := failClient, cache := ⟨[]⟩ }

/-- Claim C1 (code evidence of its failure): with an empty cache and a stub
upstream whose read of "a" succeeds with payload [104, 105] and status 200,
the first read performs one upstream call yet leaves the cache empty, and a
second read over the resulting cache state performs another upstream call —
the claim requires the miss-then-success to insert into the cache and the
second read to perform zero upstream calls. -/
theorem get_miss_success_never_inserts :
    (CachingClient.get stubCaching "a").result = .ok ([104, 105], 200) ∧
    (CachingClient.get stubCaching "a").upstreamCalls = 1 ∧
    (CachingClient.get stubCaching "a").cache = Cache.mk [] ∧
    (CachingClient.get
      { stubCaching with cache := (CachingClient.get stubCaching "a").cache }
      "a").upstreamCalls = 1 := by
  refine ⟨rfl, rfl, rfl, rfl⟩

/-- Claim C2: the cache store's contents are invariant under every operation
of CachingClient — get (hit or miss, success or failure), post, delete and
configuration writes all leave the cache state exactly as it was. -/
theorem cache_invariant_under_all_operations (c : CachingClient) (url : Url)
    (msg : Msg) (cfg : Config) :
    (CachingClient.get c url).cache = c.cache ∧
    (CachingClient.delete c url).2 = c.cache ∧
    (CachingClient.post c url msg).2 = c.cache ∧
    (CachingClient.writeConfig c cfg).cache = c.cache := by
  refine ⟨?_, rfl, rfl, rfl⟩
  unfold CachingClient.get
  cases Cache.get c.cache url with
  | some out => rfl
  | none =>
    cases c.inner.get url with
    | ok v => cases v; rfl
    | error e => rfl

/-- Claim C3: whenever the cache holds an entry for url, get returns exactly
that stored (payload, status) with zero upstream calls and an unchanged
cache, regardless of the cached status code. -/
theorem get_hit_returns_cached_entry (c : CachingClient) (url : Url)
    (entry : Bytes × StatusCode) (h : Cache.get c.cache url = some entry) :
    CachingClient.get c url =
      { result := .ok entry, cache := c.cache, upstreamCalls := 0 } := by
  unfold CachingClient.get
  rw [h]

/-- Witness for C3 at a concrete input: the cache maps "a" to a 404 entry and
the upstream stub always fails, yet get serves the cached 404 with no
upstream call. -/
theorem get_hit_returns_cached_entry_witness :
    Cache.get cachedCaching.cache "a" = some ([1, 2], 404) ∧
    CachingClient.get cachedCaching "a" =
      { result := .ok ([1, 2], 404), cache := cachedCaching.cache,
        upstreamCalls := 0 } :=
  ⟨by decide,
   get_hit_returns_cached_entry cachedCaching "a" ([1, 2], 404) (by decide)⟩

/-- Claim C4: on a cache miss whose upstream call fails, the upstream error is
propagated unchanged, the cache state is unchanged, and a second read over
the resulting state performs an upstream call again (the failure left no
cached trace). -/
theorem get_miss_failure_propagates_error (c : CachingClient) (url : Url)
    (e : Error) (hm : Cache.get c.cache url = none)
    (hf : c.inner.get url = .error e) :
    CachingClient.get c url =
      { result := .error e, cache := c.cache, upstreamCalls := 1 } ∧
    (CachingClient.get
      { c with cache := (CachingClient.get c url).cache }
      url).upstreamCalls = 1 := by
  have hg : CachingClient.get c url =
      { result := .error e, cache := c.cache, upstreamCalls := 1 } := by
    unfold CachingClient.get
    rw [hm, hf]
  refine ⟨hg, ?_⟩
  rw [hg]
  unfold CachingClient.get
  simp only
  rw [hm]
  cases c.inner.get url with
  | ok v => cases v; rfl
  | error e2 => rfl

/-- Witness for C4 at a concrete input: empty cache, upstream fails with a
transport error; the error surfaces unchanged and the retry calls upstream. -/
theorem get_miss_failure_propagates_error_witness :
    Cache.get failCaching.cache "a" = none ∧
    failCaching.inner.get "a" = .error (.transport 7) ∧
    (CachingClient.get failCaching "a" =
      { result := .error (.transport 7), cache := failCaching.cache,
        upstreamCalls := 1 } ∧
    (CachingClient.get
      { failCaching with cache := (CachingClient.get failCaching "a").cache }
      "a").upstreamCalls = 1) :=
  ⟨by decide, rfl,
   get_miss_failure_propagates_error failCaching "a" (.transport 7)
     (by decide) rfl⟩

/-- Claim C5: delete and post are pure delegations — each returns exactly the
inner client's result, the cache state after either call is the original
cache, and hence every cache lookup (in particular for a previously cached
identifier) is unchanged by them. -/
theorem delete_post_pure_delegation (c : CachingClient) (url u2 : Url)
    (msg : Msg) :
    CachingClient.delete c url = (c.inner.delete url, c.cache) ∧
    CachingClient.post c url msg = (c.inner.post url msg, c.cache) ∧
    Cache.get (CachingClient.delete c url).2 u2 = Cache.get c.cache u2 ∧
    Cache.get (CachingClient.post c url msg).2 u2 = Cache.get c.cache u2 :=
  ⟨rfl, rfl, rfl, rfl⟩

/-- Claim C6: for every clone operation that produces values equal to its
input, unwrapping a shared handle into an owned value always yields a value
equal to the referenced one (it never errors: the operation is total); when
the caller holds the only outstanding reference the value is moved out with
zero clone operations, and when other references are live exactly one
duplicate is produced. -/
theorem arc_into_inner_yields_value {T : Type} (clone : T → T)
    (a : Arc T) (hclone : ∀ x, clone x = x) :
    Arc.intoInner clone a = a.value ∧
    Arc.intoInnerCounting clone a = (Arc.intoInner clone a,
      if a.otherRefs = 0 then 0 else 1) := by
  unfold Arc.intoInner Arc.intoInnerCounting
  by_cases h : a.otherRefs = 0 <;> simp [h, hclone]

/-- Witness for C6 at a concrete input: a Nat handle with identity clone, once
as a sole reference and built so both conjuncts evaluate. -/
theorem arc_into_inner_yields_value_witness :
    (∀ x : Nat, id x = x) ∧
    (Arc.intoInner id (Arc.mk 5 2) = 5 ∧
      Arc.intoInnerCounting id (Arc.mk 5 2) = (Arc.intoInner id (Arc.mk 5 2),
        if (Arc.mk 5 2).otherRefs = 0 then 0 else 1)) :=
  ⟨fun _ => rfl, arc_into_inner_yields_value id (Arc.mk 5 2) (fun _ => rfl)⟩

/-- Claim C7: on the empty-cache path the decorator refines the upstream
client — whenever the cache holds no entry for url, the decorator's get
returns exactly the inner client's result for url, value or error. -/
theorem get_miss_refines_inner (c : CachingClient) (url : Url)
    (h : Cache.get c.cache url = none) :
    (CachingClient.get c url).result = c.inner.get url := by
  unfold CachingClient.get
  rw [h]
  cases hg : c.inner.get url with
  | ok v => cases v; rfl
  | error e => rfl

/-- Witness for C7 at a concrete input: with an empty cache the decorator
over the succeeding stub returns exactly the stub's answer. -/
theorem get_miss_refines_inner_witness :
    Cache.get stubCaching.cache "b" = none ∧
    (CachingClient.get stubCaching "b").result = stubCaching.inner.get "b" :=
  ⟨by decide, get_miss_refines_inner stubCaching "b" (by decide)⟩

/-- Claim C8: equality of CachingClient values compares only the wrapped
inner clients (for whatever equality the Client type carries) and ignores
cache contents entirely: replacing both caches by arbitrary other caches
leaves the comparison's outcome unchanged. -/
theorem eq_compares_only_inner (beqClient : Client → Client → Bool)
    (a b : CachingClient) (k1 k2 : Cache) :
    CachingClient.beq beqClient a b = beqClient a.inner b.inner ∧
    CachingClient.beq beqClient { a with cache := k1 } { b with cache := k2 } =
      CachingClient.beq beqClient a b :=
  ⟨rfl, rfl⟩

/-- Claim C10: the configuration accessors expose the inner client's
configuration — config reads it, and a write through config_mut replaces the
inner client's configuration, is observed by a subsequent config read, and
touches neither the cache nor the inner client's response behavior. -/
theorem config_accessors_delegate (c : CachingClient) (cfg : Config) :
    CachingClient.config c = c.inner.config ∧
    (CachingClient.writeConfig c cfg).inner.config = cfg ∧
    CachingClient.config (CachingClient.writeConfig c cfg) = cfg ∧
    (CachingClient.writeConfig c cfg).cache = c.cache ∧
    (CachingClient.writeConfig c cfg).inner.get = c.inner.get ∧
    (CachingClient.writeConfig c cfg).inner.post = c.inner.post ∧
    (CachingClient.writeConfig c cfg).inner.delete = c.inner.delete :=
  ⟨rfl, rfl, rfl, rfl, rfl, rfl, rfl⟩

end FreedomApi
